import Mathlib

/-!
# Verification of the Strava webhook receiver (`src/main.rs`)

A shallow embedding of the single Rust source file of the repository.

Modelling conventions:
* Machine integers `u64` become `Nat` (no arithmetic is performed on them, only
  equality and storage, so no overflow wrapping arises).
* `f64` coordinates become `ℚ`.  The only operations the program performs on
  coordinates are comparisons against the exactly-representable constants
  `40.0`, `41.0`, `-74.0`, `-73.0`; on such values IEEE-754 comparison agrees
  with rational comparison.
* The SQLite table `processed_activities` is modelled by the list of
  `activity_id` values of its rows (the surrogate key and timestamp play no
  role in any decision).  `SELECT ... WHERE activity_id = ?` is membership,
  `INSERT` is cons.
* Network effects are parameters: `fetched : Option Activity` is the result of
  the authenticated GET (`none` models any fetch/decode failure, which the `?`
  operator propagates), `updateSuccess : Bool` is whether the PUT returned a
  2xx status.
* `chrono::DateTime::parse_from_rfc3339` is embedded as `parseRFC3339`,
  implementing the RFC 3339 `date-time` grammar with range validation;
  `.weekday()` on the resulting fixed-offset datetime is the weekday of the
  civil (local) date written in the string, computed by `weekdayOf` via the
  standard days-from-civil algorithm.
* The `Vec` index expressions `coords[0]`, `coords[1]` panic when the vector
  is shorter than two elements; the embedding makes this an explicit
  `panicIndex` outcome.
-/

set_option autoImplicit false

namespace StravaWebhook

/-- A JSON value, as `serde_json::Value`: the payload the axum `Json`
extractor hands to `webhook_handler`. -/
inductive Json where
  | null
  | bool (b : Bool)
  | num (q : ℚ)
  | str (s : String)
  | arr (elems : List Json)
  | obj (fields : List (String × Json))

/-- `struct StravaEvent` from `main.rs` (the webhook POST body shape). -/
structure StravaEvent where
  aspect_type : String
  event_time : Nat
  object_id : Nat
  object_type : String
  owner_id : Nat
  subscription_id : Nat
  updates : Option Json

/-- `struct Activity` from `main.rs`: the record fetched from the Strava API. -/
structure Activity where
  id : Nat
  name : String
  activity_type : String
  start_date_local : String
  start_latlng : Option (List ℚ)

/-- Field lookup in a JSON object (`serde_json` maps have unique keys;
lookup returns the first binding). Non-objects have no fields. -/
def Json.getField (j : Json) (key : String) : Option Json :=
  match j with
  | .obj fields => fields.lookup key
  | _ => none

/-- Deserializing a JSON value into a `String` field (serde: must be a JSON
string). -/
def Json.asString : Json → Option String
  | .str s => some s
  | _ => none

/-- Deserializing a JSON value into a `u64` field (serde: must be a JSON
number that is a non-negative integer below `2^64`). -/
def Json.asU64 : Json → Option Nat
  | .num q => if q.den = 1 ∧ 0 ≤ q.num ∧ q.num < 2 ^ 64 then some q.num.toNat else none
  | _ => none

/-- `serde_json::from_value::<StravaEvent>`: all six plain fields must be
present with the right types; `updates : Option<serde_json::Value>` is `None`
when absent or `null`, `Some` otherwise.  Unknown extra fields are ignored
(serde default). -/
def decodeStravaEvent (j : Json) : Option StravaEvent := do
  let aspect ← (j.getField "aspect_type").bind Json.asString
  let etime ← (j.getField "event_time").bind Json.asU64
  let oid ← (j.getField "object_id").bind Json.asU64
  let otype ← (j.getField "object_type").bind Json.asString
  let owner ← (j.getField "owner_id").bind Json.asU64
  let sub ← (j.getField "subscription_id").bind Json.asU64
  let upd : Option Json :=
    match j.getField "updates" with
    | none => none
    | some .null => none
    | some v => some v
  pure ⟨aspect, etime, oid, otype, owner, sub, upd⟩

/-- `char::to_lowercase` restricted to its ASCII action (A–Z ↦ a–z), the only
part observable by a comparison against the all-ASCII target `"walk"`. -/
def char_to_lowercase (c : Char) : Char :=
  if 65 ≤ c.toNat ∧ c.toNat ≤ 90 then Char.ofNat (c.toNat + 32) else c

/-- `str::to_lowercase`, character by character. -/
def to_lowercase (s : String) : String :=
  String.mk (s.data.map char_to_lowercase)

/-! ## RFC 3339 timestamp parsing and weekday computation -/

/-- The parsed fixed-offset datetime (`chrono::DateTime<FixedOffset>`),
restricted to the fields the program can observe. -/
structure DateTimeRec where
  year : Nat
  month : Nat
  day : Nat
  hour : Nat
  minute : Nat
  second : Nat
  offsetMinutes : Int
deriving DecidableEq

def digitVal (c : Char) : Option Nat :=
  if c.isDigit then some (c.toNat - 48) else none

def digit2 (a b : Char) : Option Nat := do
  let x ← digitVal a
  let y ← digitVal b
  pure (10 * x + y)

def digit4 (a b c d : Char) : Option Nat := do
  let x ← digit2 a b
  let y ← digit2 c d
  pure (100 * x + y)

/-- Gregorian leap-year test. -/
def isLeapYear (y : Nat) : Bool :=
  y % 4 = 0 && (y % 100 ≠ 0 || y % 400 = 0)

def daysInMonth (y m : Nat) : Nat :=
  if m = 2 then (if isLeapYear y then 29 else 28)
  else if m = 4 ∨ m = 6 ∨ m = 9 ∨ m = 11 then 30
  else 31

/-- Skip an optional fractional-seconds part `"." 1*DIGIT` (the program never
reads sub-second precision). -/
def skipFrac : List Char → Option (List Char)
  | '.' :: rest =>
    match rest with
    | c :: _ => if c.isDigit then some (rest.dropWhile Char.isDigit) else none
    | [] => none
  | rest => some rest

/-- Parse the RFC 3339 numeric offset or `Z`/`z`, returning minutes east of
UTC.  `chrono` rejects offsets of magnitude a full day or more; hours are two
digits ≤ 23 and minutes ≤ 59 here, which keeps every parsed offset in range. -/
def parseOffset : List Char → Option Int
  | ['Z'] => some 0
  | ['z'] => some 0
  | sgn :: h1 :: h2 :: ':' :: m1 :: m2 :: [] => do
    let s : Int ← match sgn with
      | '+' => some 1
      | '-' => some (-1)
      | _ => none
    let oh ← digit2 h1 h2
    let om ← digit2 m1 m2
    if oh ≤ 23 ∧ om ≤ 59 then some (s * (oh * 60 + om)) else none
  | _ => none

/-- `chrono::DateTime::parse_from_rfc3339`: grammar
`YYYY "-" MM "-" DD ("T"|"t") hh ":" mm ":" ss ["." 1*DIGIT] ("Z"|"z"|("+"|"-") hh ":" mm)`
with calendar-valid date and in-range time components (second 60 admits a
leap second, which `chrono` accepts). -/
def parseRFC3339 (s : String) : Option DateTimeRec :=
  match s.toList with
  | y1 :: y2 :: y3 :: y4 :: '-' :: mo1 :: mo2 :: '-' :: d1 :: d2 :: t
      :: h1 :: h2 :: ':' :: mi1 :: mi2 :: ':' :: s1 :: s2 :: rest =>
    if t = 'T' ∨ t = 't' then do
      let y ← digit4 y1 y2 y3 y4
      let mo ← digit2 mo1 mo2
      let d ← digit2 d1 d2
      let h ← digit2 h1 h2
      let mi ← digit2 mi1 mi2
      let se ← digit2 s1 s2
      let afterFrac ← skipFrac rest
      let off ← parseOffset afterFrac
      if 1 ≤ mo ∧ mo ≤ 12 ∧ 1 ≤ d ∧ d ≤ daysInMonth y mo ∧ h ≤ 23 ∧ mi ≤ 59 ∧ se ≤ 60
      then some ⟨y, mo, d, h, mi, se, off⟩
      else none
    else none
  | _ => none

/-- `chrono::Weekday`. -/
inductive Weekday where
  | Mon | Tue | Wed | Thu | Fri | Sat | Sun
deriving DecidableEq

/-- Days since 1970-01-01 of a civil (proleptic Gregorian) date, by the
standard days-from-civil algorithm (floor divisions). -/
def daysFromCivil (y : Int) (m d : Nat) : Int :=
  let yAdj : Int := if m ≤ 2 then y - 1 else y
  let era : Int := Int.ediv yAdj 400
  let yoe : Int := yAdj - era * 400
  let mp : Int := Int.emod ((m : Int) + 9) 12
  let doy : Int := Int.ediv (153 * mp + 2) 5 + (d : Int) - 1
  let doe : Int := yoe * 365 + Int.ediv yoe 4 - Int.ediv yoe 100 + doy
  era * 146097 + doe - 719468

/-- Weekday of a civil date (`chrono`'s `.weekday()` of the parsed local
datetime is the weekday of the date written in the string). 1970-01-01 was a
Thursday. -/
def weekdayOf (y m d : Nat) : Weekday :=
  match ((daysFromCivil (y : Int) m d + 4).emod 7).toNat with
  | 0 => .Sun
  | 1 => .Mon
  | 2 => .Tue
  | 3 => .Wed
  | 4 => .Thu
  | 5 => .Fri
  | _ => .Sat

/-! ## The processing pipeline -/

/-- Which terminal branch of `process_activity` was taken (each corresponds to
one `println!`/`return` site, the two `?`-propagated error classes the claims
distinguish, or the `Vec` index panic). -/
inductive ProcOutcome where
  /-- early `return Ok(())`: dedup row already present -/
  | alreadyProcessed
  /-- `?` on the fetch / JSON decode of the activity: `Err` returned -/
  | fetchError
  /-- type filter rejected: `return Ok(())` -/
  | notWalk
  /-- `?` on `parse_from_rfc3339`: `Err` returned -/
  | parseError
  /-- calendar filter rejected (Sat/Sun): `return Ok(())` -/
  | weekend
  /-- geofence filter rejected (outside the box): `return Ok(())` -/
  | outsideGeofence
  /-- geofence filter rejected (`start_latlng` absent): `return Ok(())` -/
  | noLocation
  /-- `coords[0]` / `coords[1]` out of bounds: the task panics -/
  | panicIndex
  /-- update PUT succeeded, dedup row inserted, `Ok(())` -/
  | updatedAndRecorded
  /-- update PUT returned non-success: logged, no insert, `Ok(())` -/
  | updateFailed
deriving DecidableEq

/-- Does the branch return `Ok(())`? (`false` for the two `Err` returns and
for the panic, which returns nothing at all.) -/
def returnsOk : ProcOutcome → Bool
  | .alreadyProcessed | .notWalk | .weekend | .outsideGeofence | .noLocation
  | .updatedAndRecorded | .updateFailed => true
  | .fetchError | .parseError | .panicIndex => false

/-- Is the branch a hard data/transport error (an `Err` return), as opposed to
a filter rejection or success? -/
def isHardError : ProcOutcome → Bool
  | .fetchError | .parseError => true
  | _ => false

/-- Is the branch a filter rejection (an `Ok(())` return that skipped the
update because a filter said no)? -/
def isFilterReject : ProcOutcome → Bool
  | .notWalk | .weekend | .outsideGeofence | .noLocation => true
  | _ => false

/-- The form parameters of the update PUT, literally as the source builds
them: `[("name", "Rusty"), ("private", "1")]` (Strava encodes `private = true`
as `"1"`). -/
def updateFormParams : List (String × String) :=
  [("name", "Rusty"), ("private", "1")]

/-- Observable result of one run of `process_activity`. -/
structure ProcResult where
  outcome : ProcOutcome
  /-- was the authenticated GET to the Strava API issued? -/
  fetchCalled : Bool
  /-- the form body of the update PUT, if one was issued (`none` = no call) -/
  updateCall : Option (List (String × String))
  /-- the dedup store after the run (list of `activity_id` rows) -/
  store : List Nat
deriving DecidableEq

/-- `async fn process_activity(activity_id, pool)` from `main.rs`, with the
store state and the two network responses made explicit. -/
def process_activity (activity_id : Nat) (store : List Nat)
    (fetched : Option Activity) (updateSuccess : Bool) : ProcResult :=
  -- `SELECT id FROM processed_activities WHERE activity_id = ?` … `is_some()`
  if activity_id ∈ store then
    ⟨.alreadyProcessed, false, none, store⟩
  else
    -- `client.get(activity_url) … res.json().await?`
    match fetched with
    | none => ⟨.fetchError, true, none, store⟩
    | some activity =>
      -- `if activity.activity_type.to_lowercase() != "walk"`
      if to_lowercase activity.activity_type ≠ "walk" then
        ⟨.notWalk, true, none, store⟩
      else
        -- `let dt = DateTime::parse_from_rfc3339(&activity.start_date_local)?`
        match parseRFC3339 activity.start_date_local with
        | none => ⟨.parseError, true, none, store⟩
        | some dt =>
          -- `if matches!(dt.weekday(), Weekday::Sat | Weekday::Sun)`
          if weekdayOf dt.year dt.month dt.day = .Sat ∨
              weekdayOf dt.year dt.month dt.day = .Sun then
            ⟨.weekend, true, none, store⟩
          else
            -- `if let Some(coords) = activity.start_latlng`
            match activity.start_latlng with
            | none => ⟨.noLocation, true, none, store⟩
            | some coords =>
              -- `let (lat, lng) = (coords[0], coords[1]);` — panics if short
              match coords.get? 0, coords.get? 1 with
              | some lat, some lng =>
                if ¬(40 ≤ lat ∧ lat ≤ 41 ∧ -74 ≤ lng ∧ lng ≤ -73) then
                  ⟨.outsideGeofence, true, none, store⟩
                else if updateSuccess then
                  -- `INSERT INTO processed_activities (activity_id) VALUES (?)`
                  ⟨.updatedAndRecorded, true, some updateFormParams,
                    activity_id :: store⟩
                else
                  ⟨.updateFailed, true, some updateFormParams, store⟩
              | _, _ => ⟨.panicIndex, true, none, store⟩

/-! ## The webhook handler -/

/-- The HTTP method of an inbound request.  The route registers the same
handler for GET and POST and the handler never inspects the method. -/
inductive Method where
  | GET | POST
deriving DecidableEq

/-- An HTTP response: axum turns the returned `String` into a 200 response
whose body is that string. -/
structure Response where
  status : Nat
  body : String
deriving DecidableEq

/-- `async fn webhook_handler(Query(params), Json(payload), Extension(pool))`
from `main.rs`.  Returns the response together with the `object_id` handed to
the spawned `process_activity` task, `none` when no task is spawned (the
spawned task is the only code that can touch the store or the external API,
so `none` also means no store mutation and no outbound call). -/
def webhook_handler (_method : Method) (params : List (String × String))
    (payload : Json) : Response × Option Nat :=
  -- `if let Some(challenge) = params.get("hub.challenge")`
  match List.lookup "hub.challenge" params with
  | some challenge => (⟨200, challenge⟩, none)
  | none =>
    -- `if let Ok(event) = serde_json::from_value::<StravaEvent>(payload)`
    match decodeStravaEvent payload with
    | some event =>
      if event.object_type = "activity" then
        (⟨200, "OK"⟩, some event.object_id)
      else
        (⟨200, "OK"⟩, none)
    | none => (⟨200, "OK"⟩, none)

/-! ## The acceptance predicate as the specification states it -/

/-- The acceptance condition exactly as claim C1 words it: activity-type label
equals `"walk"` case-insensitively, the parsed local start timestamp falls on
Monday through Friday, and a coordinate pair is present with latitude in
`[40, 41]` and longitude in `[-74, -73]` (endpoints inclusive). -/
def claimAccepts (a : Activity) : Prop :=
  to_lowercase a.activity_type = "walk" ∧
  (∃ dt : DateTimeRec, parseRFC3339 a.start_date_local = some dt ∧
    weekdayOf dt.year dt.month dt.day ≠ .Sat ∧ weekdayOf dt.year dt.month dt.day ≠ .Sun) ∧
  (∃ lat lng : ℚ, a.start_latlng = some [lat, lng] ∧
    40 ≤ lat ∧ lat ≤ 41 ∧ -74 ≤ lng ∧ lng ≤ -73)

/-! ## Branch lemmas for `process_activity`

One lemma per terminal branch of the Rust function, each with exactly the
path conditions that reach it. -/

theorem pa_already (activity_id : Nat) (store : List Nat) (fetched : Option Activity)
    (u : Bool) (h : activity_id ∈ store) :
    process_activity activity_id store fetched u =
      ⟨.alreadyProcessed, false, none, store⟩ := by
  simp [process_activity, h]

theorem pa_fetchError (activity_id : Nat) (store : List Nat) (u : Bool)
    (h : activity_id ∉ store) :
    process_activity activity_id store none u = ⟨.fetchError, true, none, store⟩ := by
  simp [process_activity, h]

theorem pa_notWalk (activity_id : Nat) (store : List Nat) (a : Activity) (u : Bool)
    (h : activity_id ∉ store) (htype : to_lowercase a.activity_type ≠ "walk") :
    process_activity activity_id store (some a) u = ⟨.notWalk, true, none, store⟩ := by
  simp [process_activity, h, htype]

theorem pa_parseError (activity_id : Nat) (store : List Nat) (a : Activity) (u : Bool)
    (h : activity_id ∉ store) (htype : to_lowercase a.activity_type = "walk")
    (hparse : parseRFC3339 a.start_date_local = none) :
    process_activity activity_id store (some a) u = ⟨.parseError, true, none, store⟩ := by
  simp [process_activity, h, htype, hparse]

theorem pa_weekend (activity_id : Nat) (store : List Nat) (a : Activity) (dt : DateTimeRec)
    (u : Bool) (h : activity_id ∉ store) (htype : to_lowercase a.activity_type = "walk")
    (hparse : parseRFC3339 a.start_date_local = some dt)
    (hwk : weekdayOf dt.year dt.month dt.day = .Sat ∨ weekdayOf dt.year dt.month dt.day = .Sun) :
    process_activity activity_id store (some a) u = ⟨.weekend, true, none, store⟩ := by
  simp [process_activity, h, htype, hparse, hwk]

theorem pa_noLocation (activity_id : Nat) (store : List Nat) (a : Activity) (dt : DateTimeRec)
    (u : Bool) (h : activity_id ∉ store) (htype : to_lowercase a.activity_type = "walk")
    (hparse : parseRFC3339 a.start_date_local = some dt)
    (hsat : weekdayOf dt.year dt.month dt.day ≠ .Sat)
    (hsun : weekdayOf dt.year dt.month dt.day ≠ .Sun)
    (hll : a.start_latlng = none) :
    process_activity activity_id store (some a) u = ⟨.noLocation, true, none, store⟩ := by
  simp [process_activity, h, htype, hparse, hsat, hsun, hll]

theorem pa_short (activity_id : Nat) (store : List Nat) (a : Activity) (dt : DateTimeRec)
    (coords : List ℚ) (u : Bool) (h : activity_id ∉ store)
    (htype : to_lowercase a.activity_type = "walk")
    (hparse : parseRFC3339 a.start_date_local = some dt)
    (hsat : weekdayOf dt.year dt.month dt.day ≠ .Sat)
    (hsun : weekdayOf dt.year dt.month dt.day ≠ .Sun)
    (hll : a.start_latlng = some coords) (hshort : coords.length < 2) :
    process_activity activity_id store (some a) u = ⟨.panicIndex, true, none, store⟩ := by
  cases coords with
  | nil => simp [process_activity, h, htype, hparse, hsat, hsun, hll]
  | cons x xs =>
    cases xs with
    | nil => simp [process_activity, h, htype, hparse, hsat, hsun, hll]
    | cons y ys => simp at hshort; omega

theorem pa_outside (activity_id : Nat) (store : List Nat) (a : Activity) (dt : DateTimeRec)
    (lat lng : ℚ) (rest : List ℚ) (u : Bool) (h : activity_id ∉ store)
    (htype : to_lowercase a.activity_type = "walk")
    (hparse : parseRFC3339 a.start_date_local = some dt)
    (hsat : weekdayOf dt.year dt.month dt.day ≠ .Sat)
    (hsun : weekdayOf dt.year dt.month dt.day ≠ .Sun)
    (hll : a.start_latlng = some (lat :: lng :: rest))
    (hbox : ¬(40 ≤ lat ∧ lat ≤ 41 ∧ -74 ≤ lng ∧ lng ≤ -73)) :
    process_activity activity_id store (some a) u =
      ⟨.outsideGeofence, true, none, store⟩ := by
  simp [process_activity, h, htype, hparse, hsat, hsun, hll, hbox]

theorem pa_accept (activity_id : Nat) (store : List Nat) (a : Activity) (dt : DateTimeRec)
    (lat lng : ℚ) (rest : List ℚ) (u : Bool) (h : activity_id ∉ store)
    (htype : to_lowercase a.activity_type = "walk")
    (hparse : parseRFC3339 a.start_date_local = some dt)
    (hsat : weekdayOf dt.year dt.month dt.day ≠ .Sat)
    (hsun : weekdayOf dt.year dt.month dt.day ≠ .Sun)
    (hll : a.start_latlng = some (lat :: lng :: rest))
    (h1 : 40 ≤ lat) (h2 : lat ≤ 41) (h3 : -74 ≤ lng) (h4 : lng ≤ -73) :
    process_activity activity_id store (some a) u =
      if u then ⟨.updatedAndRecorded, true, some updateFormParams, activity_id :: store⟩
      else ⟨.updateFailed, true, some updateFormParams, store⟩ := by
  cases u <;> simp [process_activity, h, htype, hparse, hsat, hsun, hll, h1, h2, h3, h4]

/-- Complete case analysis of what a run does to the store: either it leaves
it unchanged, or (only on a successful update of a not-yet-processed
activity) it prepends exactly the one row for `activity_id`. -/
theorem pa_store_spec (activity_id : Nat) (store : List Nat) (fetched : Option Activity)
    (u : Bool) :
    (process_activity activity_id store fetched u).store = store ∨
    (u = true ∧ activity_id ∉ store ∧
      (process_activity activity_id store fetched u).store = activity_id :: store ∧
      (process_activity activity_id store fetched u).outcome = .updatedAndRecorded) := by
  by_cases hmem : activity_id ∈ store
  · rw [pa_already _ _ _ _ hmem]; exact Or.inl rfl
  · cases fetched with
    | none => rw [pa_fetchError _ _ _ hmem]; exact Or.inl rfl
    | some a =>
      by_cases htype : to_lowercase a.activity_type = "walk"
      · cases hp : parseRFC3339 a.start_date_local with
        | none => rw [pa_parseError _ _ _ _ hmem htype hp]; exact Or.inl rfl
        | some dt =>
          by_cases hwk : weekdayOf dt.year dt.month dt.day = .Sat ∨
              weekdayOf dt.year dt.month dt.day = .Sun
          · rw [pa_weekend _ _ _ _ _ hmem htype hp hwk]; exact Or.inl rfl
          · push_neg at hwk
            cases hll : a.start_latlng with
            | none =>
              rw [pa_noLocation _ _ _ _ _ hmem htype hp hwk.1 hwk.2 hll]; exact Or.inl rfl
            | some coords =>
              rcases coords with _ | ⟨lat, tail⟩
              · rw [pa_short _ _ _ _ _ _ hmem htype hp hwk.1 hwk.2 hll (by simp)]
                exact Or.inl rfl
              · rcases tail with _ | ⟨lng, rest⟩
                · rw [pa_short _ _ _ _ _ _ hmem htype hp hwk.1 hwk.2 hll (by simp)]
                  exact Or.inl rfl
                · by_cases hbox : 40 ≤ lat ∧ lat ≤ 41 ∧ -74 ≤ lng ∧ lng ≤ -73
                  · rw [pa_accept _ _ _ _ _ _ _ _ hmem htype hp hwk.1 hwk.2 hll
                      hbox.1 hbox.2.1 hbox.2.2.1 hbox.2.2.2]
                    cases u
                    · exact Or.inl rfl
                    · exact Or.inr ⟨rfl, hmem, rfl, rfl⟩
                  · rw [pa_outside _ _ _ _ _ _ _ _ hmem htype hp hwk.1 hwk.2 hll hbox]
                    exact Or.inl rfl
      · rw [pa_notWalk _ _ _ _ hmem htype]; exact Or.inl rfl

/-! ## The claims -/

/-- Claim C2: for an activity identifier that already has a dedup row,
re-invoking the pipeline performs no external fetch or update call, inserts
no row, leaves the store unchanged, and returns `Ok(())`. -/
theorem reinvocation_is_noop (activity_id : Nat) (store : List Nat)
    (fetched : Option Activity) (u : Bool) (h : activity_id ∈ store) :
    process_activity activity_id store fetched u =
      ⟨.alreadyProcessed, false, none, store⟩ ∧
    returnsOk .alreadyProcessed = true :=
  ⟨pa_already activity_id store fetched u h, rfl⟩

/-- Witness for C2 at a concrete already-processed identifier. -/
theorem reinvocation_is_noop_witness :
    process_activity 5 [5] none true = ⟨.alreadyProcessed, false, none, [5]⟩ ∧
    returnsOk .alreadyProcessed = true :=
  reinvocation_is_noop 5 [5] none true (by simp)

/-- Claim C3: when the external update call returns a non-success status, no
dedup row is inserted (the store is unchanged, so the activity stays eligible
for reprocessing), and the run ends in the logged `updateFailed` branch,
returning `Ok(())` with no retry. -/
theorem update_failure_no_insert (activity_id : Nat) (store : List Nat)
    (fetched : Option Activity) :
    (process_activity activity_id store fetched false).store = store ∧
    ((process_activity activity_id store fetched false).updateCall.isSome →
      (process_activity activity_id store fetched false).outcome = .updateFailed ∧
      returnsOk .updateFailed = true) := by
  have hs := pa_store_spec activity_id store fetched false
  rcases hs with hs | ⟨hfalse, _⟩
  · refine ⟨hs, ?_⟩
    intro hcall
    refine ⟨?_, rfl⟩
    -- the only branches issuing an update call are the two terminal ones;
    -- with `updateSuccess = false` the successful one is unreachable
    by_cases hmem : activity_id ∈ store
    · rw [pa_already _ _ _ _ hmem] at hcall; simp at hcall
    · cases fetched with
      | none => rw [pa_fetchError _ _ _ hmem] at hcall; simp at hcall
      | some a =>
        by_cases htype : to_lowercase a.activity_type = "walk"
        · cases hp : parseRFC3339 a.start_date_local with
          | none => rw [pa_parseError _ _ _ _ hmem htype hp] at hcall; simp at hcall
          | some dt =>
            by_cases hwk : weekdayOf dt.year dt.month dt.day = .Sat ∨
                weekdayOf dt.year dt.month dt.day = .Sun
            · rw [pa_weekend _ _ _ _ _ hmem htype hp hwk] at hcall; simp at hcall
            · push_neg at hwk
              cases hll : a.start_latlng with
              | none =>
                rw [pa_noLocation _ _ _ _ _ hmem htype hp hwk.1 hwk.2 hll] at hcall
                simp at hcall
              | some coords =>
                rcases coords with _ | ⟨lat, tail⟩
                · rw [pa_short _ _ _ _ _ _ hmem htype hp hwk.1 hwk.2 hll (by simp)] at hcall
                  simp at hcall
                · rcases tail with _ | ⟨lng, rest⟩
                  · rw [pa_short _ _ _ _ _ _ hmem htype hp hwk.1 hwk.2 hll (by simp)] at hcall
                    simp at hcall
                  · by_cases hbox : 40 ≤ lat ∧ lat ≤ 41 ∧ -74 ≤ lng ∧ lng ≤ -73
                    · rw [pa_accept _ _ _ _ _ _ _ _ hmem htype hp hwk.1 hwk.2 hll
                        hbox.1 hbox.2.1 hbox.2.2.1 hbox.2.2.2]
                      rfl
                    · rw [pa_outside _ _ _ _ _ _ _ _ hmem htype hp hwk.1 hwk.2 hll hbox] at hcall
                      simp at hcall
        · rw [pa_notWalk _ _ _ _ hmem htype] at hcall; simp at hcall
  · exact absurd hfalse (by simp)

/-- Witness for C3: a fully matching walk whose update PUT fails leaves the
store empty and ends in the `updateFailed` branch. -/
theorem update_failure_no_insert_witness :
    (process_activity 7 []
        (some ⟨7, "w", "Walk", "2024-03-04T08:00:00Z", some [40, -74]⟩) false).store = [] ∧
    (process_activity 7 []
        (some ⟨7, "w", "Walk", "2024-03-04T08:00:00Z", some [40, -74]⟩) false).outcome =
      .updateFailed := by
  have h := update_failure_no_insert 7 []
    (some ⟨7, "w", "Walk", "2024-03-04T08:00:00Z", some [40, -74]⟩)
  exact ⟨h.1, (h.2 (by decide)).1⟩

/-- Claim C4: a GET request whose query carries `hub.challenge=<token>` is
answered 200 with body exactly the token, and no processing task is spawned
(hence no store mutation and no outbound call). -/
theorem get_challenge_echoed (params : List (String × String)) (payload : Json)
    (tok : String) (h : List.lookup "hub.challenge" params = some tok) :
    webhook_handler .GET params payload = (⟨200, tok⟩, none) := by
  simp [webhook_handler, h]

/-- Witness for C4 with the spec's token `XYZ123`. -/
theorem get_challenge_echoed_witness :
    webhook_handler .GET [("hub.challenge", "XYZ123")] .null = (⟨200, "XYZ123"⟩, none) :=
  get_challenge_echoed [("hub.challenge", "XYZ123")] .null "XYZ123" rfl

/-- Claim C8: every run either leaves the dedup store unchanged or prepends a
single row for a not-yet-present identifier; in particular a store with at
most one row per identifier keeps that invariant. -/
theorem store_uniqueness_invariant (activity_id : Nat) (store : List Nat)
    (fetched : Option Activity) (u : Bool) (h : store.Nodup) :
    ((process_activity activity_id store fetched u).store = store ∨
      ((process_activity activity_id store fetched u).store = activity_id :: store ∧
        activity_id ∉ store)) ∧
    (process_activity activity_id store fetched u).store.Nodup := by
  rcases pa_store_spec activity_id store fetched u with hs | ⟨_, hmem, hs, _⟩
  · exact ⟨Or.inl hs, by rw [hs]; exact h⟩
  · exact ⟨Or.inr ⟨hs, hmem⟩, by rw [hs]; exact List.Nodup.cons hmem h⟩

/-- Witness for C8 on a concrete duplicate-free store. -/
theorem store_uniqueness_invariant_witness :
    ((process_activity 7 [3] none true).store = [3] ∨
      ((process_activity 7 [3] none true).store = 7 :: [3] ∧ 7 ∉ [3])) ∧
    (process_activity 7 [3] none true).store.Nodup :=
  store_uniqueness_invariant 7 [3] none true (by simp)

/-- Claim C10: whatever the method, whenever the query string carries a
`hub.challenge` parameter the handler echoes the token and spawns no
processing task — even if the body is a valid activity event. -/
theorem challenge_precedence (method : Method) (params : List (String × String))
    (payload : Json) (tok : String)
    (h : List.lookup "hub.challenge" params = some tok) :
    webhook_handler method params payload = (⟨200, tok⟩, none) := by
  simp [webhook_handler, h]

/-- Witness for C10: a POST carrying both a challenge parameter and a fully
decodable `object_type = "activity"` event body still only echoes the token. -/
theorem challenge_precedence_witness :
    decodeStravaEvent (.obj [("aspect_type", .str "create"), ("event_time", .num 1),
        ("object_id", .num 42), ("object_type", .str "activity"),
        ("owner_id", .num 1), ("subscription_id", .num 9)]) =
      some ⟨"create", 1, 42, "activity", 1, 9, none⟩ ∧
    webhook_handler .POST [("hub.challenge", "T")]
        (.obj [("aspect_type", .str "create"), ("event_time", .num 1),
          ("object_id", .num 42), ("object_type", .str "activity"),
          ("owner_id", .num 1), ("subscription_id", .num 9)]) = (⟨200, "T"⟩, none) :=
  ⟨rfl, challenge_precedence .POST [("hub.challenge", "T")]
    (.obj [("aspect_type", .str "create"), ("event_time", .num 1),
      ("object_id", .num 42), ("object_type", .str "activity"),
      ("owner_id", .num 1), ("subscription_id", .num 9)]) "T" rfl⟩

/-- Counterexample to claim C7 as stated: a POST whose body is valid JSON but
not decodable as the event shape, carrying `hub.challenge=XYZ123` in its query
string, is answered with the token — not with the fixed body `"OK"` the claim
requires for every such POST.  No processing is dispatched, and the status is
200, but the body differs. -/
theorem post_challenge_not_ok_body :
    decodeStravaEvent (Json.str "x") = none ∧
    (webhook_handler .POST [("hub.challenge", "XYZ123")] (Json.str "x")).1.status = 200 ∧
    (webhook_handler .POST [("hub.challenge", "XYZ123")] (Json.str "x")).2 = none ∧
    (webhook_handler .POST [("hub.challenge", "XYZ123")] (Json.str "x")).1.body ≠ "OK" :=
  ⟨rfl, rfl, rfl, by decide⟩

/-- Claim C7 (amended: restricted to POSTs whose query string carries no
`hub.challenge` parameter, which the challenge branch would otherwise
intercept): an undecodable body, or a decoded event whose `object_type` is not
`"activity"`, yields 200 with body `"OK"` and no processing dispatched. -/
theorem undecodable_post_acknowledged (params : List (String × String)) (payload : Json)
    (hch : List.lookup "hub.challenge" params = none)
    (hdec : decodeStravaEvent payload = none ∨
      ∃ e : StravaEvent, decodeStravaEvent payload = some e ∧ e.object_type ≠ "activity") :
    webhook_handler .POST params payload = (⟨200, "OK"⟩, none) := by
  unfold webhook_handler
  rw [hch]
  rcases hdec with h | ⟨e, he, hot⟩
  · rw [h]
  · rw [he]; simp [hot]

/-- Witness for amended C7: empty query string, body a bare JSON string that
does not decode as the event shape. -/
theorem undecodable_post_acknowledged_witness :
    webhook_handler .POST [] (Json.str "x") = (⟨200, "OK"⟩, none) :=
  undecodable_post_acknowledged [] (Json.str "x") rfl (Or.inl rfl)

/-- Claim C1: on a fetched, not-yet-processed activity whose coordinate
field, when present, is a pair, the filter chain issues the update call
exactly when `claimAccepts` holds (case-insensitive type `"walk"`, weekday
local start date, coordinates inside the closed box `[40,41] × [-74,-73]`);
any record failing a condition is left with no update call and an unchanged
store.  The last two conjuncts witness the fixed order with short-circuiting:
a failing type filter decides the outcome before the calendar or geofence is
consulted, and a weekend date decides it before the geofence is consulted. -/
theorem filter_chain_accepts_iff (activity_id : Nat) (store : List Nat) (a : Activity)
    (u : Bool) (hnew : activity_id ∉ store)
    (hpair : a.start_latlng = none ∨ ∃ lat lng : ℚ, a.start_latlng = some [lat, lng]) :
    ((process_activity activity_id store (some a) u).updateCall.isSome ↔ claimAccepts a) ∧
    (¬ claimAccepts a →
      (process_activity activity_id store (some a) u).updateCall = none ∧
      (process_activity activity_id store (some a) u).store = store) ∧
    (to_lowercase a.activity_type ≠ "walk" →
      (process_activity activity_id store (some a) u).outcome = .notWalk) ∧
    (∀ dt : DateTimeRec, to_lowercase a.activity_type = "walk" →
      parseRFC3339 a.start_date_local = some dt →
      (weekdayOf dt.year dt.month dt.day = .Sat ∨ weekdayOf dt.year dt.month dt.day = .Sun) →
      (process_activity activity_id store (some a) u).outcome = .weekend) := by
  by_cases htype : to_lowercase a.activity_type = "walk"
  · cases hp : parseRFC3339 a.start_date_local with
    | none =>
      rw [pa_parseError _ _ _ _ hnew htype hp]
      refine ⟨iff_of_false (by simp) ?_, fun _ => ⟨rfl, rfl⟩, fun hne => absurd htype hne, ?_⟩
      · rintro ⟨_, ⟨dt, hdt, _⟩, _⟩
        rw [hp] at hdt
        exact Option.noConfusion hdt
      · intro dt _ hdt _
        exact Option.noConfusion hdt
    | some dt =>
      by_cases hwk : weekdayOf dt.year dt.month dt.day = .Sat ∨
          weekdayOf dt.year dt.month dt.day = .Sun
      · rw [pa_weekend _ _ _ _ _ hnew htype hp hwk]
        refine ⟨iff_of_false (by simp) ?_, fun _ => ⟨rfl, rfl⟩, fun hne => absurd htype hne,
          fun _ _ _ _ => rfl⟩
        rintro ⟨_, ⟨dt', hdt', hs', hn'⟩, _⟩
        rw [hp] at hdt'
        injection hdt' with hdt'
        subst hdt'
        rcases hwk with hk | hk
        · exact hs' hk
        · exact hn' hk
      · push_neg at hwk
        rcases hpair with hnone | ⟨lat, lng, hsome⟩
        · rw [pa_noLocation _ _ _ _ _ hnew htype hp hwk.1 hwk.2 hnone]
          refine ⟨iff_of_false (by simp) ?_, fun _ => ⟨rfl, rfl⟩, fun hne => absurd htype hne, ?_⟩
          · rintro ⟨_, _, ⟨lat, lng, hsome, _⟩⟩
            rw [hnone] at hsome
            exact Option.noConfusion hsome
          · intro dt' _ hdt' hwk'
            injection hdt' with h
            subst h
            rcases hwk' with hk | hk
            · exact absurd hk hwk.1
            · exact absurd hk hwk.2
        · by_cases hbox : 40 ≤ lat ∧ lat ≤ 41 ∧ -74 ≤ lng ∧ lng ≤ -73
          · rw [pa_accept _ _ _ _ _ _ _ _ hnew htype hp hwk.1 hwk.2 hsome
              hbox.1 hbox.2.1 hbox.2.2.1 hbox.2.2.2]
            have hacc : claimAccepts a :=
              ⟨htype, ⟨dt, hp, hwk.1, hwk.2⟩,
                ⟨lat, lng, hsome, hbox.1, hbox.2.1, hbox.2.2.1, hbox.2.2.2⟩⟩
            refine ⟨iff_of_true ?_ hacc, fun hn => absurd hacc hn,
              fun hne => absurd htype hne, ?_⟩
            · cases u <;> simp
            · intro dt' _ hdt' hwk'
              injection hdt' with h
              subst h
              rcases hwk' with hk | hk
              · exact absurd hk hwk.1
              · exact absurd hk hwk.2
          · rw [pa_outside _ _ _ _ _ _ _ _ hnew htype hp hwk.1 hwk.2 hsome hbox]
            refine ⟨iff_of_false (by simp) ?_, fun _ => ⟨rfl, rfl⟩,
              fun hne => absurd htype hne, ?_⟩
            · rintro ⟨_, _, ⟨lat', lng', hsome', hb1, hb2, hb3, hb4⟩⟩
              rw [hsome] at hsome'
              injection hsome' with h
              injection h with h1 h2
              injection h2 with h2 _
              subst h1
              subst h2
              exact hbox ⟨hb1, hb2, hb3, hb4⟩
            · intro dt' _ hdt' hwk'
              injection hdt' with h
              subst h
              rcases hwk' with hk | hk
              · exact absurd hk hwk.1
              · exact absurd hk hwk.2
  · rw [pa_notWalk _ _ _ _ hnew htype]
    exact ⟨iff_of_false (by simp) (fun hacc => htype hacc.1), fun _ => ⟨rfl, rfl⟩,
      fun _ => rfl, fun _ ht _ _ => absurd ht htype⟩

/-- Witness for C1 at a concrete accepted walk (Monday 2024-03-04, coordinates
on the corner of the box). -/
theorem filter_chain_accepts_iff_witness :
    7 ∉ ([] : List Nat) ∧
    ((process_activity 7 []
        (some ⟨7, "w", "Walk", "2024-03-04T08:00:00Z", some [40, -74]⟩) true).updateCall.isSome ↔
      claimAccepts ⟨7, "w", "Walk", "2024-03-04T08:00:00Z", some [40, -74]⟩) :=
  ⟨by simp,
    (filter_chain_accepts_iff 7 [] ⟨7, "w", "Walk", "2024-03-04T08:00:00Z", some [40, -74]⟩
      true (by simp) (Or.inr ⟨40, -74, rfl⟩)).1⟩

/-- Claim C5: when every filter passes, the pipeline issues exactly one update
call with form body `name=Rusty, private=1` (`"1"` is Strava's encoding of
`private = true`), and inserts the dedup row exactly when that call succeeds. -/
theorem accepted_walk_updated_and_recorded (activity_id : Nat) (store : List Nat)
    (a : Activity) (dt : DateTimeRec) (lat lng : ℚ) (u : Bool)
    (hnew : activity_id ∉ store)
    (htype : to_lowercase a.activity_type = "walk")
    (hparse : parseRFC3339 a.start_date_local = some dt)
    (hsat : weekdayOf dt.year dt.month dt.day ≠ .Sat)
    (hsun : weekdayOf dt.year dt.month dt.day ≠ .Sun)
    (hll : a.start_latlng = some [lat, lng])
    (h1 : 40 ≤ lat) (h2 : lat ≤ 41) (h3 : -74 ≤ lng) (h4 : lng ≤ -73) :
    (process_activity activity_id store (some a) u).updateCall =
      some [("name", "Rusty"), ("private", "1")] ∧
    (u = true →
      process_activity activity_id store (some a) u =
        ⟨.updatedAndRecorded, true, some updateFormParams, activity_id :: store⟩) ∧
    (u = false →
      process_activity activity_id store (some a) u =
        ⟨.updateFailed, true, some updateFormParams, store⟩) := by
  have h := pa_accept activity_id store a dt lat lng [] u hnew htype hparse hsat hsun hll
    h1 h2 h3 h4
  cases u
  · simp only [Bool.false_eq_true, if_false] at h
    rw [h]
    exact ⟨rfl, fun hc => absurd hc (by simp), fun _ => rfl⟩
  · simp only [if_true] at h
    rw [h]
    exact ⟨rfl, fun _ => rfl, fun hc => absurd hc (by simp)⟩

/-- Witness for C5: the accepted walk is updated and its row recorded. -/
theorem accepted_walk_updated_and_recorded_witness :
    process_activity 7 [] (some ⟨7, "w", "Walk", "2024-03-04T08:00:00Z", some [40, -74]⟩) true =
      ⟨.updatedAndRecorded, true, some updateFormParams, [7]⟩ :=
  (accepted_walk_updated_and_recorded 7 [] ⟨7, "w", "Walk", "2024-03-04T08:00:00Z", some [40, -74]⟩
    ⟨2024, 3, 4, 8, 0, 0, 0⟩ 40 (-74) true (by simp) (by decide) (by decide) (by decide)
    (by decide) rfl (by decide) (by decide) (by decide) (by decide)).2.1 rfl

/-- Claim C6: a malformed local start timestamp on an otherwise matching
record aborts with `parseError` — an `Err` return (`returnsOk = false`),
distinct from every filter rejection (`isFilterReject = false`) — with no
update call and no store row; the function runs once, so nothing is retried. -/
theorem malformed_timestamp_hard_error (activity_id : Nat) (store : List Nat) (a : Activity)
    (u : Bool) (hnew : activity_id ∉ store)
    (htype : to_lowercase a.activity_type = "walk")
    (hparse : parseRFC3339 a.start_date_local = none) :
    process_activity activity_id store (some a) u = ⟨.parseError, true, none, store⟩ ∧
    returnsOk .parseError = false ∧
    isHardError .parseError = true ∧
    isFilterReject .parseError = false :=
  ⟨pa_parseError activity_id store a u hnew htype hparse, rfl, rfl, rfl⟩

/-- Witness for C6 with the spec's `"not-a-date"` timestamp. -/
theorem malformed_timestamp_hard_error_witness :
    process_activity 7 [] (some ⟨7, "w", "Walk", "not-a-date", some [40, -74]⟩) true =
      ⟨.parseError, true, none, []⟩ :=
  (malformed_timestamp_hard_error 7 [] ⟨7, "w", "Walk", "not-a-date", some [40, -74]⟩
    true (by simp) (by decide) rfl).1

/-- Claim C9: when `start_latlng` is present but has fewer than two elements,
the unchecked index accesses `coords[0]`/`coords[1]` take the pipeline to the
panic outcome — neither a filter rejection nor an `Err` return — before any
update call or store insert. -/
theorem short_latlng_panics (activity_id : Nat) (store : List Nat) (a : Activity)
    (dt : DateTimeRec) (coords : List ℚ) (u : Bool)
    (hnew : activity_id ∉ store)
    (htype : to_lowercase a.activity_type = "walk")
    (hparse : parseRFC3339 a.start_date_local = some dt)
    (hsat : weekdayOf dt.year dt.month dt.day ≠ .Sat)
    (hsun : weekdayOf dt.year dt.month dt.day ≠ .Sun)
    (hll : a.start_latlng = some coords)
    (hshort : coords.length < 2) :
    process_activity activity_id store (some a) u = ⟨.panicIndex, true, none, store⟩ ∧
    returnsOk .panicIndex = false ∧
    isFilterReject .panicIndex = false ∧
    isHardError .panicIndex = false :=
  ⟨pa_short activity_id store a dt coords u hnew htype hparse hsat hsun hll hshort,
    rfl, rfl, rfl⟩

/-- Witness for C9: an otherwise matching walk whose `start_latlng` decoded to
the empty array panics. -/
theorem short_latlng_panics_witness :
    process_activity 7 [] (some ⟨7, "w", "Walk", "2024-03-04T08:00:00Z", some []⟩) true =
      ⟨.panicIndex, true, none, []⟩ :=
  (short_latlng_panics 7 [] ⟨7, "w", "Walk", "2024-03-04T08:00:00Z", some []⟩
    ⟨2024, 3, 4, 8, 0, 0, 0⟩ [] true (by simp) (by decide) (by decide) (by decide)
    (by decide) rfl (by decide)).1

end StravaWebhook
